import Mathlib

/-!
Shallow embedding of the kb-curator-standalone review-workflow engine.

The embedded code lives in:
  * `src/lib/api/gemini-processor.ts` (curator API: processAndStoreDocument,
    enrichChunkMetadata, getChunksForReview, approveChunk, rejectChunk,
    saveChunkDraft, submitDocument),
  * `src/lib/api/flowise.ts` (enrichChunk gateway wrapper),
  * `src/hooks/useAuth.tsx` (isRole),
  * `supabase/functions/admin-api/index.ts` (approve-document handler),
  * `supabase/migrations/004_enhancements.sql` (status enumerations).

The Supabase store is modelled as in-memory association lists keyed by row id.
Single-row `update ... eq('id', k)` calls are modelled as a pointwise map over
the list; the store itself is modelled as error-free (store/network errors of
the supabase client are out of scope — every claim is about workflow logic).
Timestamps (`new Date().toISOString()`) are modelled as a `Nat` value passed
in by the caller.  JavaScript `||` on possibly-absent numbers and strings is
modelled faithfully: `0`, the empty string, `null` and `undefined` are falsy.
-/

namespace KBCurator

/-- `document_chunks.review_status`, per the CHECK constraint in
`004_enhancements.sql`: pending, approved, rejected, filtered, enriching,
draft. -/
inductive ReviewStatus
  | pending
  | approved
  | rejected
  | filtered
  | enriching
  | draft
  deriving DecidableEq, Repr

/-- `documents.processing_status`, per the CHECK constraint in
`004_enhancements.sql`. -/
inductive ProcessingStatus
  | pending
  | processing
  | review
  | submitted
  | completed
  | failed
  deriving DecidableEq, Repr

/-- `curation_queue.status`, per the CHECK constraint in
`004_enhancements.sql`. -/
inductive QueueStatus
  | pending
  | in_progress
  | completed
  deriving DecidableEq, Repr

/-- Profile roles used by `useAuth.tsx` and the admin edge function. -/
inductive UserRole
  | user
  | curator
  | admin
  deriving DecidableEq, Repr

/-- JavaScript `a || b` for possibly-absent strings: an absent value and the
empty string are falsy, so both fall through to `b`. -/
def jsStrOr (a b : Option String) : Option String :=
  match a with
  | some s => if s = "" then b else some s
  | none => b

/-- JavaScript `a || null` for a possibly-absent number: `0` and an absent
value are falsy and give `null`. -/
def jsNumOrNull (a : Option ℚ) : Option ℚ :=
  match a with
  | some x => if x = 0 then none else some x
  | none => none

/-- JavaScript `a || b` where `a` is a possibly-absent number and `b` a
number: `0` and an absent value fall through to `b`. -/
def jsNumOr (a : Option ℚ) (b : ℚ) : ℚ :=
  match a with
  | some x => if x = 0 then b else x
  | none => b

/-- The `ai_metadata` JSON bag stored on a `document_chunks` row.  Every field
the code reads or writes is modelled as optional (a key can be absent from the
JSON object); the empty object `{}` is the record with every field `none`. -/
structure AiMetadata where
  chunk_id : Option String := none
  source_document : Option String := none
  source_url : Option String := none
  document_type : Option String := none
  domain : Option String := none
  date_added : Option Nat := none
  curator : Option String := none
  tags : Option (List String) := none
  chunk_index : Option Nat := none
  word_count : Option Nat := none
  last_updated : Option Nat := none
  topic : Option String := none
  subtopic : Option String := none
  relevance_score : Option ℚ := none
  use_cases : Option (List String) := none
  key_concepts : Option (List String) := none
  confidence : Option ℚ := none
  deriving DecidableEq, Repr

/-- `FlowiseMetadata` (src/types): the enrichment result returned by the
gateway.  `topic`/`subtopic` and the two lists are always present in the
objects the wrapper returns; the two scores may be absent at runtime
(`aiMetadata.confidence || aiMetadata.relevance_score || 0.5` guards them). -/
structure FlowiseMetadata where
  topic : String
  subtopic : String
  relevance_score : Option ℚ
  use_cases : List String
  key_concepts : List String
  confidence : Option ℚ
  deriving DecidableEq, Repr

/-- The fixed default metadata that `enrichChunk` in `flowise.ts` returns when
the gateway call errors (or its response cannot be parsed): topic "Unknown",
relevance 0.5, confidence 0.3, empty lists. -/
def defaultFlowiseMetadata : FlowiseMetadata :=
  { topic := "Unknown"
    subtopic := ""
    relevance_score := some (1 / 2)
    use_cases := []
    key_concepts := []
    confidence := some (3 / 10) }

/-- Outcome of the raw `callFlowise` gateway call underlying `enrichChunk`. -/
inductive GatewayResult
  | ok (m : FlowiseMetadata)
  | error (msg : String)
  deriving DecidableEq, Repr

/-- `enrichChunk` from `src/lib/api/flowise.ts`: on a gateway error it catches
the exception and returns the fixed default metadata instead of throwing
("Return default metadata on error instead of throwing"); on success the
parsed metadata object is returned (the several response-parsing branches are
abstracted into `GatewayResult.ok`). -/
def enrichChunk : GatewayResult → FlowiseMetadata
  | .ok m => m
  | .error _ => defaultFlowiseMetadata

/-- The JavaScript object spread `{...existingMetadata, ...aiMetadata,
last_updated: now}` performed by `enrichChunkMetadata`: every key of the
enrichment object overwrites the corresponding key of the existing bag, and
`last_updated` is refreshed. -/
def mergeMetadata (existing : AiMetadata) (m : FlowiseMetadata) (now : Nat) : AiMetadata :=
  { existing with
    topic := some m.topic
    subtopic := some m.subtopic
    relevance_score := m.relevance_score
    use_cases := some m.use_cases
    key_concepts := some m.key_concepts
    confidence := m.confidence
    last_updated := some now }

/-- `FlowiseChunk` (src/types): one chunk as returned by the chunking
gateway. -/
structure FlowiseChunk where
  index : Nat
  text : String
  filtered : Bool
  section_type : String := "body"
  filter_reason : Option String := none
  deriving DecidableEq, Repr

/-- A `documents` row (the fields the embedded operations touch). -/
structure Document where
  filename : String := ""
  original_filename : String := ""
  doc_type : String
  storage_path : String := ""
  uploaded_by : Option String := none
  source_url : Option String := none
  processing_status : ProcessingStatus
  total_chunks : Nat := 0
  approved_chunks : Nat := 0
  rejected_chunks : Nat := 0
  error_message : Option String := none
  deriving DecidableEq, Repr

/-- A `document_chunks` row (the fields the embedded operations touch). -/
structure DocumentChunk where
  document_id : String
  chunk_index : Nat := 0
  chunk_text : String := ""
  chunk_size : Nat := 0
  is_filtered : Bool := false
  filtered_reason : Option String := none
  review_status : ReviewStatus
  ai_metadata : Option AiMetadata := none
  confidence_score : Option ℚ := none
  curator_notes : Option String := none
  reviewed_by : Option String := none
  reviewed_at : Option Nat := none
  deriving DecidableEq, Repr

/-- A `kb_vectors` row, with exactly the fields of the `KBVectorData`
interface built by `approveChunk`. -/
structure KBVectorRecord where
  chunk_id : String
  document_id : String
  content : String
  doc_type : Option String
  topic : Option String
  subtopic : Option String
  use_cases : List String
  key_concepts : List String
  relevance_score : Option ℚ
  curator_notes : Option String
  source_document : Option String
  source_url : Option String
  domain : Option String
  curator_name : Option String
  tags : List String
  chunk_index : Option Nat
  word_count : Option Nat
  approved_by : String
  last_updated : Nat
  deriving DecidableEq, Repr

/-- A `curation_queue` row (the fields the approve-document handler
touches). -/
structure CurationQueueItem where
  kb_id : String
  title : String := ""
  url : String
  status : QueueStatus
  deriving DecidableEq, Repr

/-- A `profiles` row (the fields the embedded operations touch). -/
structure Profile where
  role : UserRole
  is_active : Bool
  full_name : Option String := none
  deriving DecidableEq, Repr

/-- The persistent store: each table as an association list keyed by row id
(`kb_vectors` rows are never looked up by id, so they are kept as a plain
list in insertion order). -/
structure State where
  documents : List (String × Document) := []
  chunks : List (String × DocumentChunk) := []
  kbVectors : List KBVectorRecord := []
  queue : List (String × CurationQueueItem) := []
  profiles : List (String × Profile) := []
  deriving DecidableEq, Repr

/-- `select ... eq('id', k) single()`: the first row with the given id. -/
def getEntry {α : Type} (l : List (String × α)) (k : String) : Option α :=
  (l.find? (fun p => p.1 = k)).map (fun p => p.2)

/-- `update ... eq('id', k)`: rewrite every row whose id is `k`. -/
def updateEntry {α : Type} (l : List (String × α)) (k : String) (f : α → α) :
    List (String × α) :=
  l.map (fun p => if p.1 = k then (p.1, f p.2) else p)

/-- `curatorNotes || null` (JS): the empty string becomes `null`. -/
def notesOrNull (curatorNotes : String) : Option String :=
  if curatorNotes = "" then none else some curatorNotes

/-- `chunk.text.trim().split(/\s+/).length`, with `\s` approximated by ASCII
whitespace; JS `"".split(/\s+/)` yields `[""]`, hence length 1 on an
all-whitespace text. -/
def wordCount (s : String) : Nat :=
  let t := s.trim
  if t = "" then 1
  else ((t.split (fun c => c.isWhitespace)).filter (fun w => w ≠ "")).length

/-- All chunk rows whose `document_id` column equals `documentId`
(`select ... eq('document_id', documentId)`). -/
def chunksOfDocument (st : State) (documentId : String) : List DocumentChunk :=
  (st.chunks.filter (fun p => p.2.document_id = documentId)).map (fun p => p.2)

/-- The filter inside `submitDocument`:
`c.review_status === 'pending' || c.review_status === 'draft' ||
c.review_status === 'enriching'`. -/
def isBlocking (s : ReviewStatus) : Bool :=
  s == .pending || s == .draft || s == .enriching

/-- `submitDocument` (gemini-processor.ts:915-940): fetch the document's
chunks, count the ones still pending/draft/enriching; if at least one exists,
throw with the count in the message before issuing any update; otherwise set
the document's `processing_status` to `submitted`.  The returned pair is the
store state at return/throw time together with the outcome. -/
def submitDocument (st : State) (documentId : String) :
    State × Except String Unit :=
  let pendingChunks :=
    (chunksOfDocument st documentId).filter (fun c => isBlocking c.review_status)
  if pendingChunks.length > 0 then
    (st, .error ("Cannot submit: " ++ toString pendingChunks.length ++
      " chunks are still pending or in draft."))
  else
    ({ st with
        documents := updateEntry st.documents documentId
          (fun d => { d with processing_status := .submitted }) },
      .ok ())

/-- `approveChunk` (gemini-processor.ts:735-821).  Fetch the chunk (throwing
`Chunk not found` if absent); unconditionally set its `review_status` to
`approved` and stamp notes/reviewer/timestamp; build a `KBVectorData` snapshot
from the chunk row as fetched and insert it into `kb_vectors`; then invoke the
`increment_approved_chunks` RPC on the owning document.  The best-effort
`embedChunk` call at the end only talks to the external embedding service and
has no store effect, and a `kb_vectors` insert error is logged, not thrown, so
neither is modelled as a failure. -/
def approveChunk (st : State) (chunkId : String) (curatorNotes : String)
    (userId : String) (now : Nat) : State × Except String Unit :=
  match getEntry st.chunks chunkId with
  | none => (st, .error "Chunk not found")
  | some chunk =>
    let st1 : State :=
      { st with
          chunks := updateEntry st.chunks chunkId
            (fun c =>
              { c with
                  review_status := .approved
                  curator_notes := notesOrNull curatorNotes
                  reviewed_by := some userId
                  reviewed_at := some now }) }
    let profileName : Option String :=
      (getEntry st1.profiles userId).bind (fun p => p.full_name)
    let m : AiMetadata := chunk.ai_metadata.getD {}
    let vectorData : KBVectorRecord :=
      { chunk_id := chunkId
        document_id := chunk.document_id
        content := chunk.chunk_text
        doc_type := jsStrOr m.document_type
          ((getEntry st1.documents chunk.document_id).map (fun d => d.doc_type))
        topic := jsStrOr m.topic none
        subtopic := jsStrOr m.subtopic none
        use_cases := m.use_cases.getD []
        key_concepts := m.key_concepts.getD []
        relevance_score := jsNumOrNull m.relevance_score
        curator_notes := notesOrNull curatorNotes
        source_document := m.source_document
        source_url := m.source_url
        domain := m.domain
        curator_name := jsStrOr profileName m.curator
        tags := m.tags.getD []
        chunk_index := m.chunk_index
        word_count := m.word_count
        approved_by := userId
        last_updated := now }
    let st2 : State := { st1 with kbVectors := st1.kbVectors ++ [vectorData] }
    let st3 : State :=
      { st2 with
          documents := updateEntry st2.documents chunk.document_id
            (fun d => { d with approved_chunks := d.approved_chunks + 1 }) }
    (st3, .ok ())

/-- `rejectChunk` (gemini-processor.ts:826-855): fetch the chunk's
`document_id` (throwing `Chunk not found` if absent); unconditionally set
`review_status` to `rejected` with reviewer stamps; invoke the
`increment_rejected_chunks` RPC. -/
def rejectChunk (st : State) (chunkId : String) (userId : String) (now : Nat) :
    State × Except String Unit :=
  match getEntry st.chunks chunkId with
  | none => (st, .error "Chunk not found")
  | some chunk =>
    let st1 : State :=
      { st with
          chunks := updateEntry st.chunks chunkId
            (fun c =>
              { c with
                  review_status := .rejected
                  reviewed_by := some userId
                  reviewed_at := some now }) }
    let st2 : State :=
      { st1 with
          documents := updateEntry st1.documents chunk.document_id
            (fun d => { d with rejected_chunks := d.rejected_chunks + 1 }) }
    (st2, .ok ())

/-- `saveChunkDraft` (gemini-processor.ts:888-910): a single update setting
`review_status` to `draft`, storing the notes and the caller-supplied
metadata snapshot, and stamping the reviewer.  No fetch precedes it: updating
a non-existent id touches zero rows without error. -/
def saveChunkDraft (st : State) (chunkId : String) (curatorNotes : String)
    (aiMetadata : Option AiMetadata) (userId : String) (now : Nat) : State :=
  { st with
      chunks := updateEntry st.chunks chunkId
        (fun c =>
          { c with
              review_status := .draft
              curator_notes := notesOrNull curatorNotes
              ai_metadata := aiMetadata
              reviewed_by := some userId
              reviewed_at := some now }) }

/-- `aiMetadata.confidence || aiMetadata.relevance_score || 0.5` from
`enrichChunkMetadata`. -/
def derivedConfidence (m : FlowiseMetadata) : ℚ :=
  jsNumOr m.confidence (jsNumOr m.relevance_score (1 / 2))

/-- `enrichChunkMetadata` (gemini-processor.ts:564-613).  Sets the chunk's
`review_status` to `enriching`, calls `enrichChunk` (which itself never
throws: on a gateway error it resolves to the fixed default metadata), reads
the chunk's existing `ai_metadata` (`|| {}`), merges the enrichment result
over it refreshing `last_updated`, and writes the merged bag together with
the derived `confidence_score` and `review_status := pending`.  The function
returns plain `State`: its own catch block (reset to `pending`) is reachable
only through a store exception, and the store is modelled error-free. -/
def enrichChunkMetadata (st : State) (chunkId : String) (gw : GatewayResult)
    (now : Nat) : State :=
  let st1 : State :=
    { st with
        chunks := updateEntry st.chunks chunkId
          (fun c => { c with review_status := .enriching }) }
  let aiMetadata := enrichChunk gw
  let existingMetadata : AiMetadata :=
    match getEntry st1.chunks chunkId with
    | some c => c.ai_metadata.getD {}
    | none => {}
  let updatedMetadata := mergeMetadata existingMetadata aiMetadata now
  { st1 with
      chunks := updateEntry st1.chunks chunkId
        (fun c =>
          { c with
              ai_metadata := some updatedMetadata
              confidence_score := some (derivedConfidence aiMetadata)
              review_status := .pending }) }

/-- Mark a document failed, as the catch block of `processAndStoreDocument`
does: `processing_status := failed`, `error_message := error.message`. -/
def markFailed (st : State) (documentId : String) (msg : String) : State :=
  { st with
      documents := updateEntry st.documents documentId
        (fun d =>
          { d with processing_status := .failed, error_message := some msg }) }

/-- The comprehensive `ai_metadata` bag `processAndStoreDocument` builds for
each inserted chunk. -/
def initialChunkMetadata (documentId : String) (docOpt : Option Document)
    (uploaderName : Option String) (idx : Nat) (text : String) (now : Nat) :
    AiMetadata :=
  { chunk_id := some (documentId ++ "_" ++ toString idx)
    source_document := jsStrOr (docOpt.map (fun d => d.original_filename))
      (docOpt.map (fun d => d.filename))
    source_url := docOpt.map (fun d => d.storage_path)
    document_type := docOpt.map (fun d => d.doc_type)
    domain := docOpt.map (fun d => d.doc_type)
    date_added := some now
    curator := uploaderName
    tags := some []
    chunk_index := some idx
    word_count := some (wordCount text)
    last_updated := some now }

/-- The `document_chunks` row `processAndStoreDocument` inserts for the
`idx`-th gateway chunk. -/
def insertedChunkRow (documentId : String) (docOpt : Option Document)
    (uploaderName : Option String) (idx : Nat) (chunk : FlowiseChunk)
    (now : Nat) : DocumentChunk :=
  { document_id := documentId
    chunk_index := idx
    chunk_text := chunk.text
    chunk_size := chunk.text.length
    is_filtered := chunk.filtered
    filtered_reason := chunk.filter_reason
    review_status := if chunk.filtered then .filtered else .pending
    ai_metadata :=
      some (initialChunkMetadata documentId docOpt uploaderName idx chunk.text now) }

/-- `processAndStoreDocument` (gemini-processor.ts:438-559).  The gateway
call (`processDocument` / `processDocumentWithGemini`) is abstracted as the
`gw` argument; a batch-insert failure of the single `insert(chunkInserts)`
call is abstracted as `insertError` (a supabase batch insert is atomic: on
error no rows are inserted).  Flow: mark the document `processing`; on a
gateway exception, an empty chunk list, or an insert error, the catch block
marks the document `failed` with the error message and rethrows; otherwise
all chunk rows are inserted, and the document is set to `review` with
`total_chunks` the number of non-filtered chunks, which is also returned.
Ids for the new rows are synthesized from the document id and index.  The
`metadata` audit blob written on the document row (filters applied,
timestamps, filtered-vs-kept counts) is not part of any claim and is not
modelled. -/
def processAndStoreDocument (st : State) (documentId : String)
    (gw : Except String (List FlowiseChunk)) (insertError : Option String)
    (now : Nat) : State × Except String Nat :=
  let st0 : State :=
    { st with
        documents := updateEntry st.documents documentId
          (fun d => { d with processing_status := .processing }) }
  match gw with
  | .error msg => (markFailed st0 documentId msg, .error msg)
  | .ok chunks =>
    if chunks.length = 0 then
      let msg := "No chunks returned from document processing"
      (markFailed st0 documentId msg, .error msg)
    else
      let docOpt := getEntry st0.documents documentId
      let uploaderName : Option String :=
        match docOpt.bind (fun d => d.uploaded_by) with
        | some uid => jsStrOr ((getEntry st0.profiles uid).bind (fun p => p.full_name)) none
        | none => none
      let chunkInserts : List (String × DocumentChunk) :=
        chunks.enum.map (fun p =>
          (documentId ++ "#chunk" ++ toString p.1,
            insertedChunkRow documentId docOpt uploaderName p.1 p.2 now))
      match insertError with
      | some emsg =>
        let msg := "Failed to insert chunks: " ++ emsg
        (markFailed st0 documentId msg, .error msg)
      | none =>
        let st1 : State := { st0 with chunks := st0.chunks ++ chunkInserts }
        let activeChunks := (chunks.filter (fun c => !c.filtered)).length
        let st2 : State :=
          { st1 with
              documents := updateEntry st1.documents documentId
                (fun d =>
                  { d with
                      processing_status := .review
                      total_chunks := activeChunks }) }
        (st2, .ok activeChunks)

/-- Ascending order on `confidence_score` used by `getChunksForReview`'s
`order('confidence_score', { ascending: true })`; a SQL NULL sorts last in
ascending order (Postgres default NULLS LAST). -/
def confLE (a b : Option ℚ) : Bool :=
  match a, b with
  | none, none => true
  | none, some _ => false
  | some _, none => true
  | some x, some y => x ≤ y

/-- Stable insertion into a list sorted by `confLE`. -/
def orderedInsert (x : String × DocumentChunk) :
    List (String × DocumentChunk) → List (String × DocumentChunk)
  | [] => [x]
  | y :: ys =>
    if confLE x.2.confidence_score y.2.confidence_score then x :: y :: ys
    else y :: orderedInsert x ys

/-- Insertion sort by ascending confidence. -/
def sortByConfidence :
    List (String × DocumentChunk) → List (String × DocumentChunk)
  | [] => []
  | x :: xs => orderedInsert x (sortByConfidence xs)

/-- `getChunksForReview` (gemini-processor.ts:654-674): the chunk rows of the
document whose `review_status` equals `pending`, ordered by ascending
confidence score (low confidence first). -/
def getChunksForReview (st : State) (documentId : String) :
    List (String × DocumentChunk) :=
  sortByConfidence
    (st.chunks.filter (fun p =>
      p.2.document_id = documentId && p.2.review_status = ReviewStatus.pending))

/-- `isRole` (useAuth.tsx:272-280).  `profile` is the ambient profile state
(`null` when signed out): `if (!profile?.is_active) return false` rejects a
missing profile and an inactive one; then admin satisfies everything, curator
satisfies curator/user, user satisfies user. -/
def isRole (profile : Option Profile) (role : UserRole) : Bool :=
  match profile with
  | none => false
  | some p =>
    if !p.is_active then false
    else if p.role == .admin then true
    else if p.role == .curator && (role == .curator || role == .user) then true
    else if p.role == .user && role == .user then true
    else false

/-- Numeric rank of a role under the total order user < curator < admin. -/
def roleRank : UserRole → Nat
  | .user => 0
  | .curator => 1
  | .admin => 2

/-- The `approve-document` branch of the admin edge function
(supabase/functions/admin-api/index.ts).  `caller` is the profile row fetched
for the authenticated user (`none` models a profile fetch error; the even
earlier `Unauthorized` rejection of an unauthenticated request is likewise a
rejection before any state change and is folded into the same gate).  The
admin check precedes the JSON body parse and every store write.  On the admin
path: set the document's `processing_status` to `completed` (no filter on its
current status), then re-read its `source_url`/`doc_type`; when the
`source_url` is truthy (non-null and non-empty), mark every curation-queue
row matching `url = source_url` and `kb_id = doc_type` completed. -/
def approveDocumentHandler (st : State) (caller : Option Profile)
    (documentId : String) : State × Except String Unit :=
  match caller with
  | none => (st, .error "Admin privileges required")
  | some profile =>
    if profile.role ≠ .admin then (st, .error "Admin privileges required")
    else
      let st1 : State :=
        { st with
            documents := updateEntry st.documents documentId
              (fun d => { d with processing_status := .completed }) }
      match getEntry st1.documents documentId with
      | none => (st1, .ok ())
      | some doc =>
        match doc.source_url with
        | none => (st1, .ok ())
        | some u =>
          if u = "" then (st1, .ok ())
          else
            ({ st1 with
                queue := st1.queue.map (fun p =>
                  if p.2.url = u && p.2.kb_id = doc.doc_type then
                    (p.1, { p.2 with status := QueueStatus.completed })
                  else p) },
              .ok ())

/-- Fixture: a document sitting in review. -/
def exDocReview : Document := { doc_type := "vbc", processing_status := .review }

/-- Fixture: an already-approved chunk. -/
def exChunkApproved : DocumentChunk :=
  { document_id := "d1", chunk_text := "t", review_status := .approved }

/-- Fixture: the vector record created when `exChunkApproved` was first
approved. -/
def exVector0 : KBVectorRecord :=
  { chunk_id := "c1", document_id := "d1", content := "t"
    doc_type := none, topic := none, subtopic := none
    use_cases := [], key_concepts := [], relevance_score := none
    curator_notes := none, source_document := none, source_url := none
    domain := none, curator_name := none, tags := []
    chunk_index := none, word_count := none
    approved_by := "u1", last_updated := 1 }

/-- Fixture: a store where chunk `c1` is already approved and already has its
vector record. -/
def exStateApprovedWithVector : State :=
  { documents := [("d1", exDocReview)]
    chunks := [("c1", exChunkApproved)]
    kbVectors := [exVector0] }

/-- Fixture: a filtered chunk. -/
def exChunkFiltered : DocumentChunk :=
  { document_id := "d1", review_status := .filtered }

/-- Fixture: a pending chunk. -/
def exChunkPending : DocumentChunk :=
  { document_id := "d1", review_status := .pending }

/-- Fixture: a store with one filtered chunk. -/
def exStateFiltered : State :=
  { documents := [("d1", exDocReview)], chunks := [("c1", exChunkFiltered)] }

/-- Fixture: a store with one pending and one filtered chunk. -/
def exStateQueueMix : State :=
  { documents := [("d1", exDocReview)]
    chunks := [("c1", exChunkPending), ("c2", exChunkFiltered)] }

/-- Fixture: pre-existing enrichment metadata on a chunk. -/
def exPreMeta : AiMetadata := { topic := some "Medicare", last_updated := some 1 }

/-- Fixture: a pending chunk carrying `exPreMeta`. -/
def exChunkWithMeta : DocumentChunk :=
  { document_id := "d1", review_status := .pending, ai_metadata := some exPreMeta }

/-- Fixture: a store with the metadata-carrying chunk. -/
def exStateMeta : State := { chunks := [("c1", exChunkWithMeta)] }

/-- Fixture: an enrichment result with an explicit confidence of 0 and a
relevance score of 0.7. -/
def exMetaZeroConf : FlowiseMetadata :=
  { topic := "t", subtopic := "", relevance_score := some (7 / 10)
    use_cases := [], key_concepts := [], confidence := some 0 }

/-- Fixture: a store with a bare pending chunk. -/
def exStatePlain : State := { chunks := [("c1", exChunkPending)] }

/-- Fixture: a store holding only a document in review, with no chunks. -/
def exStateDocOnly : State := { documents := [("d1", exDocReview)] }

/-- Fixture: a single non-filtered gateway chunk. -/
def exFlowiseChunk : FlowiseChunk :=
  { index := 0, text := "hello world", filtered := false }

/-- Fixture: the first (non-filtered) gateway chunk of the C5 scenario. -/
def exChunkAlpha : FlowiseChunk :=
  { index := 0, text := "alpha section", filtered := false }

/-- Fixture: the filtered gateway chunk of the C5 scenario. -/
def exChunkToc : FlowiseChunk :=
  { index := 1, text := "table of contents", filtered := true
    filter_reason := some "toc" }

/-- Fixture: five gateway chunks, the second one filtered. -/
def exChunks5 : List FlowiseChunk :=
  [exChunkAlpha,
   exChunkToc,
   { index := 2, text := "beta section", filtered := false },
   { index := 3, text := "gamma section", filtered := false },
   { index := 4, text := "delta section", filtered := false }]

/-- Fixture: an active admin profile. -/
def exAdmin : Profile := { role := .admin, is_active := true }

/-- Fixture: an active curator profile. -/
def exCurator : Profile := { role := .curator, is_active := true }

/-- Fixture: a document still in `pending` (never submitted). -/
def exDocPending : Document :=
  { doc_type := "fhir", processing_status := .pending }

/-- Fixture: a store holding only `exDocPending`. -/
def exStateDocPending : State := { documents := [("d1", exDocPending)] }

/-- Fixture: a submitted document originating from a queued source URL. -/
def exDocSubmitted : Document :=
  { doc_type := "fhir", processing_status := .submitted
    source_url := some "https://x" }

/-- Fixture: a queue item matching `exDocSubmitted` by url and kb id. -/
def exQueueItemMatch : CurationQueueItem :=
  { kb_id := "fhir", url := "https://x", status := .pending }

/-- Fixture: a queue item for a different url and kb. -/
def exQueueItemOther : CurationQueueItem :=
  { kb_id := "vbc", url := "https://y", status := .pending }

/-- Fixture: a store with the submitted document and two queue items. -/
def exStateSubmitted : State :=
  { documents := [("d1", exDocSubmitted)]
    queue := [("q1", exQueueItemMatch), ("q2", exQueueItemOther)] }

theorem getEntry_cons {α : Type} (p : String × α) (tl : List (String × α))
    (k : String) :
    getEntry (p :: tl) k = if p.1 = k then some p.2 else getEntry tl k := by
  by_cases h : p.1 = k <;> simp [getEntry, List.find?_cons, h]

theorem updateEntry_cons {α : Type} (p : String × α) (tl : List (String × α))
    (k : String) (f : α → α) :
    updateEntry (p :: tl) k f =
      (if p.1 = k then (p.1, f p.2) else p) :: updateEntry tl k f := by
  simp [updateEntry]

theorem getEntry_updateEntry {α : Type} (l : List (String × α)) (k k' : String)
    (f : α → α) :
    getEntry (updateEntry l k f) k' =
      if k' = k then (getEntry l k').map f else getEntry l k' := by
  induction l with
  | nil => by_cases h : k' = k <;> simp [getEntry, updateEntry, h]
  | cons p tl ih =>
    rw [updateEntry_cons, getEntry_cons, getEntry_cons]
    by_cases hp : p.1 = k
    · by_cases hq : k' = k
      · simp [hp, hq, hp.trans hq.symm]
      · have hk : k ≠ k' := fun h => hq h.symm
        simp [hp, hq, hk, ih]
    · by_cases hq : p.1 = k'
      · have : ¬k' = k := fun hk => hp (hq.trans hk)
        simp [hp, hq, this]
      · simp [hp, hq, ih]

theorem getEntry_updateEntry_self {α : Type} (l : List (String × α)) (k : String)
    (f : α → α) : getEntry (updateEntry l k f) k = (getEntry l k).map f := by
  simp [getEntry_updateEntry]

theorem getEntry_updateEntry_ne {α : Type} (l : List (String × α)) {k k' : String}
    (f : α → α) (h : k' ≠ k) :
    getEntry (updateEntry l k f) k' = getEntry l k' := by
  simp [getEntry_updateEntry, h]

theorem updateEntry_length {α : Type} (l : List (String × α)) (k : String)
    (f : α → α) : (updateEntry l k f).length = l.length := by
  simp [updateEntry]

theorem mem_orderedInsert (x a : String × DocumentChunk)
    (l : List (String × DocumentChunk)) :
    a ∈ orderedInsert x l ↔ a = x ∨ a ∈ l := by
  induction l with
  | nil => simp [orderedInsert]
  | cons y ys ih =>
    by_cases h : confLE x.2.confidence_score y.2.confidence_score
    · simp [orderedInsert, h]
    · simp [orderedInsert, h, ih]
      tauto

theorem mem_sortByConfidence (a : String × DocumentChunk)
    (l : List (String × DocumentChunk)) :
    a ∈ sortByConfidence l ↔ a ∈ l := by
  induction l with
  | nil => simp [sortByConfidence]
  | cons y ys ih =>
    simp [sortByConfidence, mem_orderedInsert, ih]

/-- C8: `isRole(required)` holds iff the profile is active and its role is at
least the required role under the total order user < curator < admin.  In
particular an inactive curator fails `isRole('curator')` and `isRole('user')`,
and an inactive admin fails every check (the right-hand side is `false`
whenever `is_active` is `false`). -/
theorem isRole_iff_rank_and_active (p : Profile) (required : UserRole) :
    isRole (some p) required =
      (p.is_active && decide (roleRank required ≤ roleRank p.role)) := by
  cases hr : p.role <;> cases required <;>
    cases ha : p.is_active <;> simp [isRole, roleRank, hr, ha]

/-- C1: for a document in the store, `submitDocument` succeeds (and then the
document's `processing_status` is `submitted`) iff zero of its chunks are in
{pending, draft, enriching}; with `n ≥ 1` such chunks it returns the error
`"Cannot submit: <n> chunks are still pending or in draft."` — whose text
contains the blocking count — and leaves the store (hence the document's
`processing_status`) unchanged. -/
theorem submitDocument_submitted_iff_no_blocking (st : State)
    (documentId : String) (doc : Document)
    (hdoc : getEntry st.documents documentId = some doc) :
    (((submitDocument st documentId).2 = .ok ()) ↔
      ((chunksOfDocument st documentId).filter
        (fun c => isBlocking c.review_status)).length = 0) ∧
    (((chunksOfDocument st documentId).filter
        (fun c => isBlocking c.review_status)).length = 0 →
      (getEntry (submitDocument st documentId).1.documents documentId).map
          (fun d => d.processing_status) = some .submitted) ∧
    (∀ n, ((chunksOfDocument st documentId).filter
        (fun c => isBlocking c.review_status)).length = n → 0 < n →
      submitDocument st documentId =
        (st, .error ("Cannot submit: " ++ toString n ++
          " chunks are still pending or in draft."))) := by
  by_cases h :
      ((chunksOfDocument st documentId).filter
        (fun c => isBlocking c.review_status)).length = 0
  · refine ⟨by simp [submitDocument, h], fun _ => ?_, ?_⟩
    · simp [submitDocument, h, getEntry_updateEntry_self, hdoc]
    · intro n hn hpos
      omega
  · have hpos : 0 <
        ((chunksOfDocument st documentId).filter
          (fun c => isBlocking c.review_status)).length := Nat.pos_of_ne_zero h
    refine ⟨?_, fun h0 => absurd h0 h, ?_⟩
    · simp [submitDocument, hpos, h]
    · intro n hn _
      subst hn
      simp [submitDocument, hpos]

/-- C1 witness: a three-chunk document (approved, approved, pending) fails
submission with the message counting 1 blocking chunk; a clean document
succeeds. -/
theorem submitDocument_submitted_iff_no_blocking_witness :
    let doc : Document := { doc_type := "vbc", processing_status := .review }
    let st : State :=
      { documents := [("d1", doc)]
        chunks :=
          [("c1", { document_id := "d1", review_status := .approved }),
           ("c2", { document_id := "d1", review_status := .approved }),
           ("c3", { document_id := "d1", review_status := .pending })] }
    submitDocument st "d1" =
      (st, .error "Cannot submit: 1 chunks are still pending or in draft.") := by
  intro doc st
  have h := submitDocument_submitted_iff_no_blocking st "d1" doc (by decide)
  exact h.2.2 1 (by decide) (by decide)

/-- C10: `submitDocument` never inspects the document's own
`processing_status` (the statement quantifies over a document in an arbitrary
status, with no hypothesis on it): whenever no chunk of the document is in
{pending, draft, enriching} — in particular whenever the document has zero
chunks — the call succeeds and sets `processing_status` to `submitted`, and
the call errors only when the blocking-chunk count is positive (the store is
modelled error-free). -/
theorem submitDocument_ignores_document_status (st : State)
    (documentId : String) (doc : Document)
    (hdoc : getEntry st.documents documentId = some doc) :
    (((chunksOfDocument st documentId).filter
        (fun c => isBlocking c.review_status)).length = 0 →
      (submitDocument st documentId).2 = .ok () ∧
      (getEntry (submitDocument st documentId).1.documents documentId).map
          (fun d => d.processing_status) = some .submitted) ∧
    (∀ e, (submitDocument st documentId).2 = .error e →
      0 < ((chunksOfDocument st documentId).filter
        (fun c => isBlocking c.review_status)).length) := by
  constructor
  · intro h
    refine ⟨by simp [submitDocument, h], ?_⟩
    simp [submitDocument, h, getEntry_updateEntry_self, hdoc]
  · intro e he
    by_contra hn
    have h0 : ((chunksOfDocument st documentId).filter
        (fun c => isBlocking c.review_status)).length = 0 := by omega
    simp [submitDocument, h0] at he

/-- C10 witness: a document sitting in `completed` with zero chunks is still
accepted by `submitDocument` and moved to `submitted`. -/
theorem submitDocument_ignores_document_status_witness :
    let doc : Document := { doc_type := "fhir", processing_status := .completed }
    let st : State := { documents := [("d9", doc)] }
    (submitDocument st "d9").2 = .ok () ∧
    (getEntry (submitDocument st "d9").1.documents "d9").map
        (fun d => d.processing_status) = some .submitted := by
  intro doc st
  exact (submitDocument_ignores_document_status st "d9" doc (by decide)).1 (by decide)

/-- C2 counterexample: `approveChunk` checks no precondition on
`review_status`.  In a store holding a chunk that is already `approved` and
already has its `kb_vectors` record, invoking `approveChunk` on it succeeds
and leaves TWO vector records for that chunk — refuting both that only
`pending`/`draft` chunks are approvable and that each chunk has at most one
vector record across every operation sequence. -/
theorem approveChunk_second_vector_counterexample :
    exChunkApproved.review_status = .approved ∧
    (approveChunk exStateApprovedWithVector "c1" "" "u1" 7).2 = .ok () ∧
    ((approveChunk exStateApprovedWithVector "c1" "" "u1" 7).1.kbVectors.filter
      (fun v => v.chunk_id = "c1")).length = 2 := by
  refine ⟨rfl, rfl, ?_⟩
  decide

/-- C2 amended: `approveChunk` performs no precondition check on the chunk's
`review_status` — for any chunk present in the store, whatever its status
(including already `approved`), the call succeeds, sets the status to
`approved`, and appends exactly one new `kb_vectors` record for that chunk.
Consequently a repeated invocation creates a second vector record, and the
at-most-one-vector-per-chunk invariant holds only if callers invoke
`approveChunk` at most once per chunk. -/
theorem approveChunk_no_precondition_appends_vector (st : State)
    (chunkId curatorNotes userId : String) (now : Nat) (c : DocumentChunk)
    (hc : getEntry st.chunks chunkId = some c) :
    (approveChunk st chunkId curatorNotes userId now).2 = .ok () ∧
    (getEntry (approveChunk st chunkId curatorNotes userId now).1.chunks
        chunkId).map (fun ch => ch.review_status) = some .approved ∧
    ∃ v, (approveChunk st chunkId curatorNotes userId now).1.kbVectors =
        st.kbVectors ++ [v] ∧ v.chunk_id = chunkId := by
  refine ⟨by simp [approveChunk, hc], ?_, ?_⟩
  · simp [approveChunk, hc, getEntry_updateEntry_self]
  · simp only [approveChunk, hc]
    exact ⟨_, rfl, rfl⟩

/-- C2 amended witness: approving a pending chunk in a one-chunk store
succeeds, marks it approved, and appends one vector record. -/
theorem approveChunk_no_precondition_appends_vector_witness :
    (approveChunk exStatePlain "c1" "notes" "u1" 7).2 = .ok () ∧
    (getEntry (approveChunk exStatePlain "c1" "notes" "u1" 7).1.chunks "c1").map
        (fun ch => ch.review_status) = some .approved ∧
    ∃ v, (approveChunk exStatePlain "c1" "notes" "u1" 7).1.kbVectors =
        exStatePlain.kbVectors ++ [v] ∧ v.chunk_id = "c1" := by
  exact approveChunk_no_precondition_appends_vector exStatePlain "c1" "notes"
    "u1" 7 exChunkPending (by decide)

/-- C3 counterexample: a chunk inserted with `review_status = filtered` CAN
be driven to `approved` by the listed operations: `approveChunk` invoked
directly on it performs no status check and marks it `approved`. -/
theorem filtered_chunk_approvable_counterexample :
    exChunkFiltered.review_status = .filtered ∧
    (approveChunk exStateFiltered "c1" "" "u1" 3).2 = .ok () ∧
    (getEntry (approveChunk exStateFiltered "c1" "" "u1" 3).1.chunks "c1").map
        (fun ch => ch.review_status) = some .approved := by
  refine ⟨rfl, rfl, ?_⟩
  decide

/-- C3 amended: every chunk served by `getChunksForReview` has
`review_status = pending`, so a chunk whose status is `filtered` never
appears in the review queue; but the mutating operations check no status
precondition, so `approveChunk` invoked directly on a filtered chunk does
move it to `approved`. -/
theorem filtered_excluded_from_review_queue :
    (∀ (st : State) (documentId : String) (p : String × DocumentChunk),
      p ∈ getChunksForReview st documentId →
        p.2.review_status = .pending) ∧
    (∀ (st : State) (chunkId userId : String) (now : Nat) (c : DocumentChunk),
      getEntry st.chunks chunkId = some c → c.review_status = .filtered →
        (getEntry (approveChunk st chunkId "" userId now).1.chunks
            chunkId).map (fun ch => ch.review_status) = some .approved) := by
  constructor
  · intro st documentId p hp
    rw [getChunksForReview, mem_sortByConfidence, List.mem_filter] at hp
    have := hp.2
    simp only [Bool.and_eq_true, decide_eq_true_eq] at this
    exact this.2
  · intro st chunkId userId now c hc _
    simp [approveChunk, hc, getEntry_updateEntry_self]

/-- C3 amended witness: in a store with one pending and one filtered chunk,
the filtered chunk does not appear in the queue (every queue member is
pending), and approving the filtered chunk directly marks it approved. -/
theorem filtered_excluded_from_review_queue_witness :
    exChunkPending.review_status = ReviewStatus.pending ∧
    (getEntry (approveChunk exStateQueueMix "c2" "" "u1" 3).1.chunks "c2").map
        (fun ch => ch.review_status) = some .approved := by
  exact ⟨filtered_excluded_from_review_queue.1 exStateQueueMix "d1"
      ("c1", exChunkPending) (by decide),
    filtered_excluded_from_review_queue.2 exStateQueueMix "c2" "u1" 3
      exChunkFiltered (by decide) (by decide)⟩

/-- C4 counterexample: when the enrichment gateway errors,
`enrichChunkMetadata` does NOT leave `ai_metadata` byte-identical — the
flowise wrapper swallows the error and returns the fixed default metadata,
which gets merged over the existing bag (here overwriting `topic`
"Medicare" with "Unknown" and refreshing `last_updated`). -/
theorem enrich_failure_overwrites_metadata_counterexample :
    exChunkWithMeta.ai_metadata = some exPreMeta ∧
    ((getEntry (enrichChunkMetadata exStateMeta "c1" (.error "HTTP 500") 5).chunks
        "c1").bind (fun ch => ch.ai_metadata) ≠ some exPreMeta) ∧
    ((getEntry (enrichChunkMetadata exStateMeta "c1" (.error "HTTP 500") 5).chunks
        "c1").bind (fun ch => ch.ai_metadata)).bind
        (fun m => m.topic) = some "Unknown" := by
  decide

/-- C4 amended: when the enrichment gateway errors on a chunk that already
has `ai_metadata`, the call never raises and the chunk ends in
`review_status = pending`, but its `ai_metadata` is NOT byte-identical to the
pre-call value: the fixed default metadata (topic "Unknown", subtopic "",
relevance 0.5, empty lists, confidence 0.3) is merged over the existing bag
and `last_updated` is refreshed; `confidence_score` is set to 0.3. -/
theorem enrich_failure_merges_default_metadata (st : State)
    (chunkId gwmsg : String) (now : Nat) (c : DocumentChunk)
    (hc : getEntry st.chunks chunkId = some c) :
    getEntry (enrichChunkMetadata st chunkId (.error gwmsg) now).chunks
        chunkId =
      some { c with
              review_status := .pending
              confidence_score := some (3 / 10)
              ai_metadata := some
                { (c.ai_metadata.getD {}) with
                    topic := some "Unknown"
                    subtopic := some ""
                    relevance_score := some (1 / 2)
                    use_cases := some []
                    key_concepts := some []
                    confidence := some (3 / 10)
                    last_updated := some now } } := by
  simp [enrichChunkMetadata, enrichChunk, defaultFlowiseMetadata, mergeMetadata,
    derivedConfidence, jsNumOr, getEntry_updateEntry_self, hc]

/-- C4 amended witness: concrete chunk with topic "Medicare"; the failed
enrichment leaves it pending with the default metadata merged in. -/
theorem enrich_failure_merges_default_metadata_witness :
    getEntry (enrichChunkMetadata exStateMeta "c1" (.error "HTTP 500") 5).chunks
        "c1" =
      some { exChunkWithMeta with
              review_status := .pending
              confidence_score := some (3 / 10)
              ai_metadata := some
                { (exChunkWithMeta.ai_metadata.getD {}) with
                    topic := some "Unknown"
                    subtopic := some ""
                    relevance_score := some (1 / 2)
                    use_cases := some []
                    key_concepts := some []
                    confidence := some (3 / 10)
                    last_updated := some 5 } } := by
  exact enrich_failure_merges_default_metadata exStateMeta "c1" "HTTP 500" 5
    exChunkWithMeta (by decide)

/-- C7 counterexample: the stored `confidence_score` after a successful
enrichment does NOT always equal the explicit confidence value when one is
present: JavaScript `||` treats the number 0 as absent, so an explicit
confidence of 0 falls through to the relevance score. -/
theorem confidence_zero_falls_through_counterexample :
    exMetaZeroConf.confidence = some 0 ∧
    ((getEntry (enrichChunkMetadata exStatePlain "c1" (.ok exMetaZeroConf) 5).chunks
        "c1").bind (fun ch => ch.confidence_score) = some (7 / 10)) := by
  refine ⟨rfl, ?_⟩
  norm_num [enrichChunkMetadata, enrichChunk, derivedConfidence, jsNumOr,
    exMetaZeroConf, exStatePlain, exChunkPending, getEntry, updateEntry,
    List.find?]

/-- C7 amended: after a successful enrichment, the stored `confidence_score`
equals the enrichment result's confidence when that is present AND nonzero,
otherwise its relevance score when that is present AND nonzero, otherwise the
fixed default 0.5 (JavaScript `||` semantics: the value 0 falls through like
an absent value). -/
theorem enrich_success_confidence_spec (st : State) (chunkId : String)
    (now : Nat) (c : DocumentChunk) (m : FlowiseMetadata)
    (hc : getEntry st.chunks chunkId = some c) :
    (getEntry (enrichChunkMetadata st chunkId (.ok m) now).chunks
        chunkId).bind (fun ch => ch.confidence_score) =
      some (match m.confidence with
        | some x =>
          if x = 0 then
            match m.relevance_score with
            | some y => if y = 0 then (1 / 2 : ℚ) else y
            | none => (1 / 2 : ℚ)
          else x
        | none =>
          match m.relevance_score with
          | some y => if y = 0 then (1 / 2 : ℚ) else y
          | none => (1 / 2 : ℚ)) := by
  have hconf :
      (getEntry (enrichChunkMetadata st chunkId (.ok m) now).chunks
          chunkId).bind (fun ch => ch.confidence_score) =
        some (derivedConfidence m) := by
    simp [enrichChunkMetadata, enrichChunk, getEntry_updateEntry_self, hc]
  rw [hconf]
  cases hx : m.confidence with
  | none =>
    cases hy : m.relevance_score with
    | none => simp [derivedConfidence, jsNumOr, hx, hy]
    | some y => by_cases h : y = 0 <;> simp [derivedConfidence, jsNumOr, hx, hy, h]
  | some x =>
    by_cases h : x = 0
    · cases hy : m.relevance_score with
      | none => simp [derivedConfidence, jsNumOr, hx, hy, h]
      | some y => by_cases h2 : y = 0 <;> simp [derivedConfidence, jsNumOr, hx, hy, h, h2]
    · simp [derivedConfidence, jsNumOr, hx, h]

/-- C7 amended witness: confidence 0 with relevance 0.7 stores 0.7. -/
theorem enrich_success_confidence_spec_witness :
    (getEntry (enrichChunkMetadata exStatePlain "c1" (.ok exMetaZeroConf) 5).chunks
        "c1").bind (fun ch => ch.confidence_score) =
      some (match exMetaZeroConf.confidence with
        | some x =>
          if x = 0 then
            match exMetaZeroConf.relevance_score with
            | some y => if y = 0 then (1 / 2 : ℚ) else y
            | none => (1 / 2 : ℚ)
          else x
        | none =>
          match exMetaZeroConf.relevance_score with
          | some y => if y = 0 then (1 / 2 : ℚ) else y
          | none => (1 / 2 : ℚ)) := by
  exact enrich_success_confidence_spec exStatePlain "c1" 5 exChunkPending
    exMetaZeroConf (by decide)

theorem enum_map_getElem {β : Type} (f : ℕ × FlowiseChunk → β)
    (chunks : List FlowiseChunk) (i : ℕ) (ch : FlowiseChunk)
    (h : chunks[i]? = some ch) :
    ((chunks.enum).map f)[i]? = some (f (i, ch)) := by
  simp [List.getElem?_map, List.getElem?_enum, h]

/-- C5: on the success path (gateway returns a non-empty chunk list, batch
insert succeeds), `processAndStoreDocument` returns the count of non-filtered
chunks, sets the document's `processing_status` to `review` and its
`total_chunks` to that same count, inserts exactly one chunk row per gateway
chunk, and gives the `i`-th inserted row `review_status = filtered` when the
`i`-th gateway chunk has `filtered = true` and `pending` otherwise. -/
theorem processAndStoreDocument_success_spec (st : State) (documentId : String)
    (doc : Document) (chunks : List FlowiseChunk) (now : Nat)
    (hdoc : getEntry st.documents documentId = some doc)
    (hne : ¬chunks.length = 0) :
    (processAndStoreDocument st documentId (.ok chunks) none now).2 =
      .ok ((chunks.filter (fun c => !c.filtered)).length) ∧
    (getEntry (processAndStoreDocument st documentId (.ok chunks) none
        now).1.documents documentId).map (fun d => d.processing_status) =
      some .review ∧
    (getEntry (processAndStoreDocument st documentId (.ok chunks) none
        now).1.documents documentId).map (fun d => d.total_chunks) =
      some ((chunks.filter (fun c => !c.filtered)).length) ∧
    (processAndStoreDocument st documentId (.ok chunks) none now).1.chunks.length =
      st.chunks.length + chunks.length ∧
    (∀ (i : ℕ) (ch : FlowiseChunk), chunks[i]? = some ch →
      ((processAndStoreDocument st documentId (.ok chunks) none
          now).1.chunks[st.chunks.length + i]?).map
        (fun p => p.2.review_status) =
        some (if ch.filtered then ReviewStatus.filtered else ReviewStatus.pending)) := by
  refine ⟨?_, ?_, ?_, ?_, ?_⟩
  · simp [processAndStoreDocument, hne]
  · simp [processAndStoreDocument, hne, getEntry_updateEntry_self, hdoc]
  · simp [processAndStoreDocument, hne, getEntry_updateEntry_self, hdoc]
  · simp [processAndStoreDocument, hne]
  · intro i ch hch
    have hle : st.chunks.length ≤ st.chunks.length + i := Nat.le_add_right _ _
    simp only [processAndStoreDocument, hne, eq_self_iff_true, if_false,
      decide_False, Bool.false_eq_true, if_neg hne]
    rw [List.getElem?_append_right hle]
    have hsub : st.chunks.length + i - st.chunks.length = i := by omega
    rw [hsub, enum_map_getElem _ chunks i ch hch]
    simp [insertedChunkRow]

/-- C5 witness: the spec scenario — five gateway chunks with one filtered
yield `total_chunks = 4`, document status `review`, five inserted rows, the
second `filtered` and the first `pending`. -/
theorem processAndStoreDocument_success_spec_witness :
    (processAndStoreDocument exStateDocOnly "d1" (.ok exChunks5) none 9).2 =
      .ok ((exChunks5.filter (fun c => !c.filtered)).length) ∧
    (getEntry (processAndStoreDocument exStateDocOnly "d1" (.ok exChunks5) none
        9).1.documents "d1").map (fun d => d.processing_status) = some .review ∧
    (getEntry (processAndStoreDocument exStateDocOnly "d1" (.ok exChunks5) none
        9).1.documents "d1").map (fun d => d.total_chunks) =
      some ((exChunks5.filter (fun c => !c.filtered)).length) ∧
    (processAndStoreDocument exStateDocOnly "d1" (.ok exChunks5) none
        9).1.chunks.length = exStateDocOnly.chunks.length + exChunks5.length ∧
    ((processAndStoreDocument exStateDocOnly "d1" (.ok exChunks5) none
        9).1.chunks[exStateDocOnly.chunks.length + 1]?).map
      (fun p => p.2.review_status) = some ReviewStatus.filtered ∧
    ((processAndStoreDocument exStateDocOnly "d1" (.ok exChunks5) none
        9).1.chunks[exStateDocOnly.chunks.length + 0]?).map
      (fun p => p.2.review_status) = some ReviewStatus.pending ∧
    (exChunks5.filter (fun c => !c.filtered)).length = 4 := by
  have h := processAndStoreDocument_success_spec exStateDocOnly "d1" exDocReview
    exChunks5 9 (by decide) (by decide)
  have h1 := h.2.2.2.2 1 exChunkToc (by decide)
  have h0 := h.2.2.2.2 0 exChunkAlpha (by decide)
  exact ⟨h.1, h.2.1, h.2.2.1, h.2.2.2.1, by simpa using h1, by simpa using h0,
    by decide⟩

/-- C6: every failure mode of `processAndStoreDocument` — a gateway
exception, a gateway result of zero chunks, or a chunk-insert error — marks
the document `failed` with `error_message` set to the failure reason,
propagates the error to the caller, and leaves the chunk table unchanged (the
batch insert is atomic, so no partial batch is recorded); the document's
status is `failed`, not `review`, in that call. -/
theorem processAndStoreDocument_failure_spec (st : State) (documentId : String)
    (doc : Document) (now : Nat)
    (hdoc : getEntry st.documents documentId = some doc) :
    (∀ msg : String,
      (processAndStoreDocument st documentId (.error msg) none now).2 =
        .error msg ∧
      (getEntry (processAndStoreDocument st documentId (.error msg) none
          now).1.documents documentId).map (fun d => d.processing_status) =
        some .failed ∧
      ((getEntry (processAndStoreDocument st documentId (.error msg) none
          now).1.documents documentId).bind (fun d => d.error_message)) =
        some msg ∧
      (processAndStoreDocument st documentId (.error msg) none now).1.chunks =
        st.chunks) ∧
    ((processAndStoreDocument st documentId (.ok []) none now).2 =
        .error "No chunks returned from document processing" ∧
      (getEntry (processAndStoreDocument st documentId (.ok []) none
          now).1.documents documentId).map (fun d => d.processing_status) =
        some .failed ∧
      ((getEntry (processAndStoreDocument st documentId (.ok []) none
          now).1.documents documentId).bind (fun d => d.error_message)) =
        some "No chunks returned from document processing" ∧
      (processAndStoreDocument st documentId (.ok []) none now).1.chunks =
        st.chunks) ∧
    (∀ (chunks : List FlowiseChunk) (emsg : String), ¬chunks.length = 0 →
      (processAndStoreDocument st documentId (.ok chunks) (some emsg) now).2 =
        .error ("Failed to insert chunks: " ++ emsg) ∧
      (getEntry (processAndStoreDocument st documentId (.ok chunks) (some emsg)
          now).1.documents documentId).map (fun d => d.processing_status) =
        some .failed ∧
      ((getEntry (processAndStoreDocument st documentId (.ok chunks) (some emsg)
          now).1.documents documentId).bind (fun d => d.error_message)) =
        some ("Failed to insert chunks: " ++ emsg) ∧
      (processAndStoreDocument st documentId (.ok chunks) (some emsg)
          now).1.chunks = st.chunks) := by
  refine ⟨fun msg => ⟨?_, ?_, ?_, ?_⟩, ⟨?_, ?_, ?_, ?_⟩,
    fun chunks emsg hne => ⟨?_, ?_, ?_, ?_⟩⟩
  · simp [processAndStoreDocument, markFailed]
  · simp [processAndStoreDocument, markFailed, getEntry_updateEntry_self, hdoc]
  · simp [processAndStoreDocument, markFailed, getEntry_updateEntry_self, hdoc]
  · simp [processAndStoreDocument, markFailed]
  · simp [processAndStoreDocument, markFailed]
  · simp [processAndStoreDocument, markFailed, getEntry_updateEntry_self, hdoc]
  · simp [processAndStoreDocument, markFailed, getEntry_updateEntry_self, hdoc]
  · simp [processAndStoreDocument, markFailed]
  · simp [processAndStoreDocument, markFailed, hne]
  · simp [processAndStoreDocument, markFailed, hne, getEntry_updateEntry_self, hdoc]
  · simp [processAndStoreDocument, markFailed, hne, getEntry_updateEntry_self, hdoc]
  · simp [processAndStoreDocument, markFailed, hne]

/-- C6 witness: concrete runs of the three failure modes on a one-document
store: gateway error "boom", empty gateway result, and insert error
"disk full". -/
theorem processAndStoreDocument_failure_spec_witness :
    ((processAndStoreDocument exStateDocOnly "d1" (.error "boom") none 9).2 =
        .error "boom" ∧
      (getEntry (processAndStoreDocument exStateDocOnly "d1" (.error "boom")
          none 9).1.documents "d1").map (fun d => d.processing_status) =
        some .failed ∧
      ((getEntry (processAndStoreDocument exStateDocOnly "d1" (.error "boom")
          none 9).1.documents "d1").bind (fun d => d.error_message)) =
        some "boom" ∧
      (processAndStoreDocument exStateDocOnly "d1" (.error "boom") none
          9).1.chunks = exStateDocOnly.chunks) ∧
    ((processAndStoreDocument exStateDocOnly "d1" (.ok []) none 9).2 =
        .error "No chunks returned from document processing" ∧
      (getEntry (processAndStoreDocument exStateDocOnly "d1" (.ok []) none
          9).1.documents "d1").map (fun d => d.processing_status) =
        some .failed ∧
      ((getEntry (processAndStoreDocument exStateDocOnly "d1" (.ok []) none
          9).1.documents "d1").bind (fun d => d.error_message)) =
        some "No chunks returned from document processing" ∧
      (processAndStoreDocument exStateDocOnly "d1" (.ok []) none 9).1.chunks =
        exStateDocOnly.chunks) ∧
    ((processAndStoreDocument exStateDocOnly "d1" (.ok [exFlowiseChunk])
          (some "disk full") 9).2 =
        .error ("Failed to insert chunks: " ++ "disk full") ∧
      (getEntry (processAndStoreDocument exStateDocOnly "d1"
          (.ok [exFlowiseChunk]) (some "disk full") 9).1.documents "d1").map
        (fun d => d.processing_status) = some .failed ∧
      ((getEntry (processAndStoreDocument exStateDocOnly "d1"
          (.ok [exFlowiseChunk]) (some "disk full") 9).1.documents "d1").bind
        (fun d => d.error_message)) =
        some ("Failed to insert chunks: " ++ "disk full") ∧
      (processAndStoreDocument exStateDocOnly "d1" (.ok [exFlowiseChunk])
          (some "disk full") 9).1.chunks = exStateDocOnly.chunks) := by
  have h := processAndStoreDocument_failure_spec exStateDocOnly "d1"
    exDocReview 9 (by decide)
  exact ⟨h.1 "boom", h.2.1, h.2.2 [exFlowiseChunk] "disk full" (by decide)⟩

/-- C9 counterexample: the `approve-document` handler applies no precondition
on the document's current `processing_status`: invoked by an admin on a
document still in `pending` (never submitted), it succeeds and sets the
status to `completed`, refuting that the transition is only taken from a
document in `submitted`. -/
theorem approveDocument_from_any_status_counterexample :
    exDocPending.processing_status = .pending ∧
    (approveDocumentHandler exStateDocPending (some exAdmin) "d1").2 = .ok () ∧
    (getEntry (approveDocumentHandler exStateDocPending (some exAdmin)
        "d1").1.documents "d1").map (fun d => d.processing_status) =
      some .completed := by
  refine ⟨rfl, rfl, ?_⟩
  decide

/-- C9 amended: the handler rejects a non-admin caller with
"Admin privileges required" before any entity is modified (the returned store
is the input store); for an admin caller and a stored document it succeeds,
sets the document's `processing_status` to `completed` REGARDLESS of its
current status (no `submitted` precondition is checked), and marks completed
exactly the curation-queue rows whose `url` equals the document's (truthy)
`source_url` and whose `kb_id` equals its `doc_type`. -/
theorem approveDocumentHandler_spec :
    (∀ (st : State) (p : Profile) (documentId : String), p.role ≠ .admin →
      approveDocumentHandler st (some p) documentId =
        (st, .error "Admin privileges required")) ∧
    (∀ (st : State) (p : Profile) (documentId : String) (doc : Document),
      p.role = .admin → getEntry st.documents documentId = some doc →
      (approveDocumentHandler st (some p) documentId).2 = .ok () ∧
      (getEntry (approveDocumentHandler st (some p)
          documentId).1.documents documentId).map
        (fun d => d.processing_status) = some .completed ∧
      (approveDocumentHandler st (some p) documentId).1.queue =
        st.queue.map (fun q =>
          match doc.source_url with
          | some u =>
            if u = "" then q
            else if q.2.url = u && q.2.kb_id = doc.doc_type then
              (q.1, { q.2 with status := QueueStatus.completed })
            else q
          | none => q)) := by
  constructor
  · intro st p documentId hp
    simp [approveDocumentHandler, hp]
  · intro st p documentId doc hp hdoc
    have hget : getEntry
        (updateEntry st.documents documentId
          (fun d => { d with processing_status := ProcessingStatus.completed }))
        documentId =
        some { doc with processing_status := ProcessingStatus.completed } := by
      rw [getEntry_updateEntry_self, hdoc]; rfl
    refine ⟨?_, ?_, ?_⟩
    · simp [approveDocumentHandler, hp, hget]
      cases doc.source_url with
      | none => simp
      | some u => by_cases hu : u = "" <;> simp [hu]
    · simp [approveDocumentHandler, hp, hget]
      cases doc.source_url with
      | none => simp [getEntry_updateEntry_self, hdoc]
      | some u =>
        by_cases hu : u = "" <;> simp [hu, getEntry_updateEntry_self, hdoc]
    · simp only [approveDocumentHandler, hp, hget]
      cases doc.source_url with
      | none => simp
      | some u =>
        by_cases hu : u = "" <;> simp [hu]

/-- C9 amended witness: a curator caller is rejected with the store
untouched; an admin caller completes the submitted document and exactly the
matching queue item. -/
theorem approveDocumentHandler_spec_witness :
    (approveDocumentHandler exStateSubmitted (some exCurator) "d1" =
      (exStateSubmitted, .error "Admin privileges required")) ∧
    ((approveDocumentHandler exStateSubmitted (some exAdmin) "d1").2 = .ok () ∧
    (getEntry (approveDocumentHandler exStateSubmitted (some exAdmin)
        "d1").1.documents "d1").map (fun d => d.processing_status) =
      some .completed ∧
    (approveDocumentHandler exStateSubmitted (some exAdmin) "d1").1.queue =
      exStateSubmitted.queue.map (fun q =>
        match exDocSubmitted.source_url with
        | some u =>
          if u = "" then q
          else if q.2.url = u && q.2.kb_id = exDocSubmitted.doc_type then
            (q.1, { q.2 with status := QueueStatus.completed })
          else q
        | none => q)) := by
  exact ⟨approveDocumentHandler_spec.1 exStateSubmitted exCurator "d1"
      (by decide),
    approveDocumentHandler_spec.2 exStateSubmitted exAdmin "d1" exDocSubmitted
      rfl (by decide)⟩

end KBCurator
